import Mathlib

/-!
# homewizard-p1-exporter: a shallow embedding of `cmd/homewizard-p1-exporter/main.go`

The Go program is one HTTP handler (`homewizardHandler`) and one helper
(`probeHomewizard`).  Both are straight-line code over mutable objects of the
Prometheus client library (gauges, a registry) and over the outside world (the
monotonic clock, the device's HTTP API, the log).  The embedding threads an explicit
`World` through every statement:

* `World.gauges` / `World.registries` are the heap cells of the `*Gauge` and
  `*Registry` objects, addressed by allocation number;
* `World.trace` records the interactions with the environment in program order, and
  `World.sent` the GET requests that `net/http` puts on the wire for them;
* `Env` is the environment's side of those interactions (clock readings, what the
  device answers, how a body decodes).

Library functions (`prometheus`, `promhttp`, `net/http`, `context`, `time`,
`encoding/json`) are not part of the repository; they are modelled after their
documented behaviour, and `encoding/json` decoding is a parameter of `Env`.
-/

namespace HomewizardP1Exporter

/-! ## Values -/

/-- Go `float64`.  Every value this program can hold is finite (JSON numbers that
overflow are decode errors, and `Duration.Seconds` is bounded), so a value is
represented by the rational number it denotes. -/
abbrev Float64 := ℚ

/-- Element type of `P1.External` (an anonymous struct in the source). -/
structure External where
  UniqueID : String
  Typ : String
  Timestamp : Int
  Value : Float64
  Unit : String
  deriving DecidableEq

/-- Go `type P1 struct`, field for field. -/
structure P1 where
  WifiSSID : String
  WifiStrength : Float64
  SmrVersion : Float64
  MeterModel : String
  UniqueID : String
  ActiveTariff : Float64
  TotalPowerImportKwh : Float64
  TotalPowerImportT1Kwh : Float64
  TotalPowerImportT2Kwh : Float64
  TotalPowerExportKwh : Float64
  TotalPowerExportT1Kwh : Float64
  TotalPowerExportT2Kwh : Float64
  ActivePowerW : Float64
  ActivePowerL1W : Float64
  ActivePowerL2W : Float64
  ActivePowerL3W : Float64
  ActiveVoltageL1V : Float64
  ActiveVoltageL2V : Float64
  ActiveVoltageL3V : Float64
  ActiveCurrentL1A : Float64
  ActiveCurrentL2A : Float64
  ActiveCurrentL3A : Float64
  VoltageSagL1Count : Float64
  VoltageSagL2Count : Float64
  VoltageSagL3Count : Float64
  VoltageSwellL1Count : Float64
  VoltageSwellL2Count : Float64
  VoltageSwellL3Count : Float64
  AnyPowerFailCount : Float64
  LongPowerFailCount : Float64
  TotalGasM3 : Float64
  GasTimestamp : Int
  GasUniqueID : String
  External : List External
  deriving DecidableEq

/-! ## `time` -/

/-- Go `time.Duration`: a signed 64-bit count of nanoseconds. -/
abbrev Duration := Int

/-- Go `time.Second`. -/
def Second : Duration := 1000000000

/-- Largest `time.Duration` (`1<<63 - 1`). -/
def maxDuration : Duration := 9223372036854775807

/-- Smallest `time.Duration` (`-1 << 63`). -/
def minDuration : Duration := -9223372036854775808

/-- A `time.Time` as far as this program uses it: its monotonic clock reading, in
nanoseconds. -/
abbrev Time := Int

/-- Two's-complement wrap-around of an integer to 64 bits. -/
def wrapInt64 (x : Int) : Int :=
  (x + 9223372036854775808) % 18446744073709551616 - 9223372036854775808

/-- Go `func subMono(t, u int64) Duration` of package `time`: the difference of two
monotonic readings, saturated when the 64-bit subtraction overflows:
`d := Duration(t - u); if d < 0 && t > u { return maxDuration };
if d > 0 && t < u { return minDuration }; return d`. -/
def subMono (t u : Time) : Duration :=
  let d := wrapInt64 (t - u)
  if d < 0 ∧ t > u then maxDuration
  else if d > 0 ∧ t < u then minDuration
  else d

/-- Round a rational to the nearest integer, ties to even. -/
def roundHalfEven (q : ℚ) : ℤ :=
  let f := ⌊q⌋
  if q - f < 1 / 2 then f
  else if 1 / 2 < q - f then f + 1
  else if f % 2 = 0 then f else f + 1

/-- Exponent of the unit in the last place of the binary64 number nearest to `q`:
53 significant bits for normal numbers, the fixed quantum `2^-1074` below. -/
def ulpExp (q : ℚ) : ℤ :=
  max (Int.log 2 |q| - 52) (-1074)

/-- IEEE 754 binary64 round-to-nearest-even of an exact result (overflow to infinity
is out of reach of every use in this program). -/
def roundFloat64 (q : ℚ) : Float64 :=
  if q = 0 then 0 else roundHalfEven (q / (2 : ℚ) ^ ulpExp q) * (2 : ℚ) ^ ulpExp q

/-- Go `func (d Duration) Seconds() float64`:
`sec := d / Second; nsec := d % Second; return float64(sec) + float64(nsec)/1e9`. -/
def Duration.Seconds (d : Duration) : Float64 :=
  let sec := Int.tdiv d Second
  let nsec := Int.tmod d Second
  roundFloat64 (roundFloat64 sec + roundFloat64 (roundFloat64 nsec / 1000000000))

/-! ## `context` and `net/http` -/

/-- The contexts this program builds. -/
inductive Context where
  /-- Go `context.Background()`: never cancelled. -/
  | background
  /-- The inbound request's own context; `cancelled` says whether the scraper goes
  away before the downstream GET would complete. -/
  | request (cancelled : Bool)
  /-- Go `context.WithTimeout(parent, d)`. -/
  | withTimeout (parent : Context) (d : Duration)
  deriving DecidableEq

/-- What `client.Get` hands back once `err == nil`. -/
structure HttpResponse where
  StatusCode : Nat
  Body : String
  deriving DecidableEq

/-- The pair `(resp, err)` returned by `client.Get`: a transport-level error, or a
response. -/
inductive GetResult where
  | err (e : String)
  | resp (r : HttpResponse)
  deriving DecidableEq

/-- Go `http.StatusOK`. -/
def StatusOK : Nat := 200

/-- Go `http.StatusBadRequest`. -/
def StatusBadRequest : Nat := 400

/-- Go `url.Values` (`map[string][]string`), as an association list. -/
abbrev Values := List (String × List String)

/-- Go `func (v Values) Get(key string) string`: the first value of `key`, or `""`. -/
def Values.Get (v : Values) (key : String) : String :=
  match v.lookup key with
  | some (x :: _) => x
  | _ => ""

/-- The part of `*http.Request` the handler reads. -/
structure Request where
  /-- Result of `r.URL.Query()`. -/
  Query : Values
  /-- Result of `r.Context()`. -/
  ctx : Context

/-- Go `func (r *Request) WithContext(ctx) *Request`. -/
def Request.WithContext (r : Request) (ctx : Context) : Request :=
  { r with ctx := ctx }

/-! ## The environment -/

/-- Lines this program can log (format arguments kept, formatting left out). -/
inductive LogLine where
  | probeSucceeded (target : String) (duration : Float64)
  | probeFailed (target : String) (duration : Float64)
  | queryFailed (target : String) (res : GetResult)
  | unmarshalFailed (target : String)
  deriving DecidableEq

/-- One interaction with the world outside the handler. -/
inductive Event where
  /-- A reading of the monotonic clock (`time.Now`, `time.Since`). -/
  | clock (t : Time)
  /-- A call `client.Get(url)`: the call the program makes, with the string it passes.
  The requests the call puts on the wire are recorded in `World.sent`. -/
  | get (url : String)
  /-- A call `log.Printf`. -/
  | log (l : LogLine)
  deriving DecidableEq

/-- The environment's answers. -/
structure Env where
  /-- The `k`-th reading of the process's monotonic clock. -/
  monotonic : Nat → Time
  /-- Whether a timer of the given duration expires before the downstream GET would
  complete. -/
  expires : Duration → Bool
  /-- What a GET of the URL yields when nothing aborts it (this includes the client's
  own `Timeout`, reported as a transport error, and the error of a string that does not
  parse as a URL). -/
  device : String → GetResult
  /-- Outcome of `json.NewDecoder(body).Decode(&p1)` on a zero `P1`: `none` when it
  returns an error. -/
  decode : String → Option P1
  /-- The URLs of the GET requests that one call `client.Get(url)` puts on the wire, in
  order, for a string that passes the two checks of `urlParseRejects`: none when
  `net/http` gives up before sending (the other checks of `url.Parse`, a URL without a
  host), one in the plain case, more when the client follows redirects or sends a
  request again on a connection that turned out dead. -/
  wire : String → List String

/-- Whether the context is done before the downstream GET would complete. -/
def Context.done (env : Env) : Context → Bool
  | .background => false
  | .request cancelled => cancelled
  | .withTimeout parent d => parent.done env || env.expires d

/-- A round trip of one GET request carrying context `ctx`: aborted with an error when
the context is done first. -/
def roundTrip (env : Env) (ctx : Context) (url : String) : GetResult :=
  if ctx.done env then .err "context canceled" else env.device url

/-- Go `stringContainsCTLByte` of `net/url`: some byte is below `0x20` or is `0x7f`
(every byte of a character outside ASCII is `0x80` or more, so characters can be tested
in place of bytes). -/
def stringContainsCTLByte (s : List Char) : Bool :=
  s.any fun c => c.toNat < 0x20 || c.toNat == 0x7f

/-- The authority of a URL string that starts with `http://`, as `url.Parse` cuts it
out: what follows the two slashes, up to the first `/`, `?` or `#`. -/
def httpAuthority (url : String) : Option (List Char) :=
  match url.data with
  | 'h' :: 't' :: 't' :: 'p' :: ':' :: '/' :: '/' :: rest =>
    some (rest.takeWhile fun c => c != '/' && c != '?' && c != '#')
  | _ => none

/-- Two of the checks by which Go `url.Parse` returns an error, so that `client.Get`
returns that error without sending anything: a control character before the fragment
(`net/url: invalid control character in URL`), and a space in the authority of an
`http://` URL (`invalid character " " in host name`, or `invalid userinfo` when it
stands before an `@`). -/
def urlParseRejects (url : String) : Bool :=
  stringContainsCTLByte (url.data.takeWhile fun c => c != '#') ||
  match httpAuthority url with
  | some authority => authority.contains ' '
  | none => false

/-- The GET requests one call `client.Get(url)` puts on the wire. -/
def clientSends (env : Env) (url : String) : List String :=
  if urlParseRejects url then [] else env.wire url

/-! ## The Prometheus objects and the state monad -/

/-- Go `prometheus.GaugeOpts` (the fields the program sets). -/
structure GaugeOpts where
  Name : String
  Help : String
  deriving DecidableEq

/-- A `prometheus.Gauge` object: its descriptor and its current value. -/
structure Gauge where
  opts : GaugeOpts
  val : Float64
  deriving DecidableEq

/-- Process state: the heap of Prometheus objects and the history of interactions. -/
structure World where
  /-- Number of objects allocated so far; the next one gets this address. -/
  next : Nat
  /-- Contents of the gauge at each address. -/
  gauges : Nat → Gauge
  /-- Contents of the registry at each address: the registered gauges, in order. -/
  registries : Nat → List Nat
  /-- Number of clock readings taken so far. -/
  reads : Nat
  /-- Interactions so far, oldest first. -/
  trace : List Event
  /-- URLs of the GET requests put on the wire so far, oldest first. -/
  sent : List String

/-- A Go panic. -/
inductive Panic where
  | alreadyRegistered (name : String)
  | invalidName (name : String)
  deriving DecidableEq

/-- Computations over the process state that may panic. -/
def M (α : Type) : Type := World → Except Panic (α × World)

instance : Monad M where
  pure a := fun w => .ok (a, w)
  bind m f := fun w =>
    match m w with
    | .error e => .error e
    | .ok (a, w') => f a w'

/-- Pointwise update of a heap component. -/
def upd {α : Type} (f : Nat → α) (i : Nat) (a : α) : Nat → α :=
  fun j => if j = i then a else f j

/-- Go `prometheus.NewGauge(opts)`: a fresh gauge with value zero. -/
def NewGauge (opts : GaugeOpts) : M Nat := fun w =>
  .ok (w.next, { w with next := w.next + 1, gauges := upd w.gauges w.next ⟨opts, 0⟩ })

/-- Go `prometheus.NewRegistry()`: a fresh registry with nothing registered. -/
def NewRegistry : M Nat := fun w =>
  .ok (w.next, { w with next := w.next + 1, registries := upd w.registries w.next [] })

/-- First character of a metric name: `[a-zA-Z_:]`. -/
def isNameStart (c : Char) : Bool :=
  c.isAlpha || c == '_' || c == ':'

/-- Prometheus `model.IsValidMetricName` (legacy validation):
`[a-zA-Z_:][a-zA-Z0-9_:]*`. -/
def IsValidMetricName (n : String) : Bool :=
  match n.data with
  | [] => false
  | c :: cs => isNameStart c && cs.all fun d => isNameStart d || d.isDigit

/-- Go `registry.MustRegister(g)`: panics when the descriptor is invalid or a collector
with the same fully-qualified name is already registered; otherwise adds the gauge. -/
def MustRegister (registry g : Nat) : M Unit := fun w =>
  let name := (w.gauges g).opts.Name
  if !IsValidMetricName name then .error (.invalidName name)
  else if (w.registries registry).any fun h => (w.gauges h).opts.Name == name then
    .error (.alreadyRegistered name)
  else .ok ((), { w with registries := upd w.registries registry (w.registries registry ++ [g]) })

/-- Go `func (g *gauge) Set(val float64)`. -/
def GaugeSet (g : Nat) (val : Float64) : M Unit := fun w =>
  .ok ((), { w with gauges := upd w.gauges g { w.gauges g with val := val } })

/-- A reading of the monotonic clock. -/
def readClock (env : Env) : M Time := fun w =>
  .ok (env.monotonic w.reads,
    { w with reads := w.reads + 1, trace := w.trace ++ [.clock (env.monotonic w.reads)] })

/-- Go `time.Now()`. -/
def timeNow (env : Env) : M Time := readClock env

/-- Go `time.Since(t)` for a `t` with a monotonic reading: `subMono` of the clock's
reading now and the reading in `t`. -/
def timeSince (env : Env) (t : Time) : M Duration := do
  let now ← readClock env
  pure (subMono now t)

/-- Go `log.Printf`. -/
def logPrintf (l : LogLine) : M Unit := fun w =>
  .ok ((), { w with trace := w.trace ++ [.log l] })

/-- Go `func (c *Client) Get(url string)`: the library builds the request with
`NewRequest`, that is with `context.Background()`, and performs it.  The call is one
event of the trace; what it puts on the wire is `clientSends`. -/
def clientGet (env : Env) (url : String) : M GetResult := fun w =>
  .ok (roundTrip env .background url,
    { w with trace := w.trace ++ [.get url], sent := w.sent ++ clientSends env url })

/-! ## The response to the scraper -/

/-- One gathered metric family: a gauge's name, help text and value. -/
structure MetricFamily where
  name : String
  help : String
  value : Float64
  deriving DecidableEq

/-- What has been written to the `http.ResponseWriter`. -/
inductive Body where
  /-- A text body. -/
  | text (s : String)
  /-- The exposition of the gathered families. -/
  | metrics (families : List MetricFamily)
  deriving DecidableEq

/-- Content types the handler can produce. -/
inductive ContentType where
  /-- The type `text/plain; charset=utf-8`, set by `http.Error`. -/
  | textPlain
  /-- The exposition format negotiated by `promhttp`. -/
  | exposition
  deriving DecidableEq

/-- The state of the `http.ResponseWriter` when the handler returns. -/
structure ResponseWriter where
  status : Nat
  contentType : ContentType
  body : Body
  deriving DecidableEq

/-- Go `http.Error(w, error, code)`: plain-text content type, the status code, and the
message followed by a newline. -/
def httpError (error : String) (code : Nat) : ResponseWriter :=
  { status := code, contentType := .textPlain, body := .text (error ++ "\n") }

/-- Insert a family into a list sorted by name. -/
def insertFamily (f : MetricFamily) : List MetricFamily → List MetricFamily
  | [] => [f]
  | g :: gs => if f.name < g.name then f :: g :: gs else g :: insertFamily f gs

/-- Go `registry.Gather()`: one family per registered gauge, sorted by name. -/
def Gather (registry : Nat) : M (List MetricFamily) := fun w =>
  .ok (((w.registries registry).map fun g =>
      (⟨(w.gauges g).opts.Name, (w.gauges g).opts.Help, (w.gauges g).val⟩ : MetricFamily)).foldr
        insertFamily [], w)

/-- Go `promhttp.HandlerFor(registry, promhttp.HandlerOpts{}).ServeHTTP(w, r)`: gather
the registry and write the exposition with status 200. -/
def promhttpServeHTTP (registry : Nat) (_r : Request) : M ResponseWriter := do
  let mfs ← Gather registry
  pure { status := StatusOK, contentType := .exposition, body := .metrics mfs }

/-! ## The program -/

/-- Go `fmt.Sprintf("http://%s/api/v1/data", target)`. -/
def dataURL (target : String) : String :=
  "http://" ++ target ++ "/api/v1/data"

/-- Go `func probeHomewizard(ctx, target, registry) (success bool)`.  The body of the
source never mentions `ctx`; the parameter is kept, unused, as it is there. -/
def probeHomewizard (env : Env) (_ctx : Context) (target : String) (registry : Nat) :
    M Bool := do
  let wifiStrengthGauge ← NewGauge
    ⟨"homewizard_wifi_strength_decibels", "strength of WIFI signal for homewizard in decibels"⟩
  let activePowerWattGauge ← NewGauge
    ⟨"homewizard_active_power_watts", "current (total) usage of power meassured in watts (W)"⟩
  let activePowerL1WattGauge ← NewGauge
    ⟨"homewizard_active_power_l1_watts", "current (L1) usage of power meassured in watts (w)"⟩
  let activePowerL2WattGauge ← NewGauge
    ⟨"homewizard_active_power_l2_watts", "current (L2) usage of power meassured in watts (w)"⟩
  let activePowerL3WattGauge ← NewGauge
    ⟨"homewizard_active_power_l3_watts", "current (L3) usage of power meassured in watts (w)"⟩
  let anyFailedGauge ← NewGauge
    ⟨"homewizard_any_power_fail_count", "number of power failures meassured by P1"⟩
  let longFailedGauge ← NewGauge
    ⟨"homewizard_long_power_fail_count", "number of long power failures meassured by P1"⟩
  let totalGasGauge ← NewGauge
    ⟨"homewizard_gas_m3_total", "total usage of gas reported by the gas meter in m3"⟩
  MustRegister registry wifiStrengthGauge
  MustRegister registry activePowerWattGauge
  MustRegister registry activePowerL1WattGauge
  MustRegister registry activePowerL2WattGauge
  MustRegister registry activePowerL3WattGauge
  MustRegister registry anyFailedGauge
  MustRegister registry longFailedGauge
  MustRegister registry totalGasGauge
  let res ← clientGet env (dataURL target)
  match res with
  | .err e =>
    logPrintf (.queryFailed target (.err e))
    pure false
  | .resp resp =>
    if resp.StatusCode ≠ StatusOK then
      logPrintf (.queryFailed target (.resp resp))
      pure false
    else
      match env.decode resp.Body with
      | none =>
        logPrintf (.unmarshalFailed target)
        pure false
      | some p1 =>
        GaugeSet wifiStrengthGauge p1.WifiStrength
        GaugeSet activePowerWattGauge p1.ActivePowerW
        GaugeSet activePowerL1WattGauge p1.ActivePowerL1W
        GaugeSet activePowerL2WattGauge p1.ActivePowerL2W
        GaugeSet activePowerL3WattGauge p1.ActivePowerL3W
        GaugeSet anyFailedGauge p1.AnyPowerFailCount
        GaugeSet longFailedGauge p1.LongPowerFailCount
        GaugeSet totalGasGauge p1.TotalGasM3
        pure true

/-- Go `func homewizardHandler(w http.ResponseWriter, r *http.Request)`; the result is
what the handler has written to `w`.  The deferred `cancel()` releases the timeout
context when the handler returns and has no effect on anything modelled here. -/
def homewizardHandler (env : Env) (r : Request) : M ResponseWriter := do
  let probeSuccessGauge ← NewGauge
    ⟨"probe_success", "Displays whether or not the probe was a success"⟩
  let probeDurationGauge ← NewGauge
    ⟨"probe_duration_seconds", "Returns how long the probe took to complete in seconds"⟩
  let params := r.Query
  let target := params.Get "target"
  if target = "" then
    pure (httpError "Target parameter is missing" StatusBadRequest)
  else
    let ctx := Context.withTimeout r.ctx (5 * Second)
    let r := r.WithContext ctx
    let start ← timeNow env
    let registry ← NewRegistry
    MustRegister registry probeSuccessGauge
    MustRegister registry probeDurationGauge
    let success ← probeHomewizard env ctx target registry
    let duration := (← timeSince env start).Seconds
    GaugeSet probeDurationGauge duration
    if success then
      GaugeSet probeSuccessGauge 1
      logPrintf (.probeSucceeded target duration)
    else
      logPrintf (.probeFailed target duration)
    promhttpServeHTTP registry r

/-! ## Vocabulary of the statements -/

/-- Value of the metric family called `name` in what the handler wrote, if the body is
an exposition that has one. -/
def ResponseWriter.gauge (rw : ResponseWriter) (name : String) : Option Float64 :=
  match rw.body with
  | .metrics fs => (fs.find? fun f => f.name == name).map fun f => f.value
  | .text _ => none

/-- Names of the metric families in what the handler wrote, in order. -/
def ResponseWriter.names (rw : ResponseWriter) : List String :=
  match rw.body with
  | .metrics fs => fs.map fun f => f.name
  | .text _ => []

/-- URLs of the `client.Get` calls of a trace, in order. -/
def gets : List Event → List String
  | [] => []
  | .get url :: es => url :: gets es
  | _ :: es => gets es

/-- Names of the eight gauges `probeHomewizard` creates, in the order of creation. -/
def deviceNames : List String :=
  ["homewizard_wifi_strength_decibels", "homewizard_active_power_watts",
   "homewizard_active_power_l1_watts", "homewizard_active_power_l2_watts",
   "homewizard_active_power_l3_watts", "homewizard_any_power_fail_count",
   "homewizard_long_power_fail_count", "homewizard_gas_m3_total"]

/-- Names of the two gauges `homewizardHandler` creates, in the order of creation. -/
def metaNames : List String :=
  ["probe_success", "probe_duration_seconds"]

/-- Names of the gauges registered in registry `registry` of `w`, in the order of
registration. -/
def registeredNames (w : World) (registry : Nat) : List String :=
  (w.registries registry).map fun g => (w.gauges g).opts.Name

/-- A registry that `probeHomewizard` can be handed: everything registered in it is an
allocated gauge, and none carries one of the eight device names. -/
def Registrable (w : World) (registry : Nat) : Prop :=
  ∀ g ∈ w.registries registry, g < w.next ∧ (w.gauges g).opts.Name ∉ deviceNames

/-- A process that has served nothing yet: an empty heap, an empty trace and nothing
sent, with the clock about to give its `reads`-th reading. -/
def World.pristine (reads : Nat) : World :=
  { next := 0, gauges := fun _ => ⟨⟨"", ""⟩, 0⟩, registries := fun _ => [],
    reads := reads, trace := [], sent := [] }

/-- The Go zero value of `P1`. -/
def P1.zero : P1 where
  WifiSSID := ""
  WifiStrength := 0
  SmrVersion := 0
  MeterModel := ""
  UniqueID := ""
  ActiveTariff := 0
  TotalPowerImportKwh := 0
  TotalPowerImportT1Kwh := 0
  TotalPowerImportT2Kwh := 0
  TotalPowerExportKwh := 0
  TotalPowerExportT1Kwh := 0
  TotalPowerExportT2Kwh := 0
  ActivePowerW := 0
  ActivePowerL1W := 0
  ActivePowerL2W := 0
  ActivePowerL3W := 0
  ActiveVoltageL1V := 0
  ActiveVoltageL2V := 0
  ActiveVoltageL3V := 0
  ActiveCurrentL1A := 0
  ActiveCurrentL2A := 0
  ActiveCurrentL3A := 0
  VoltageSagL1Count := 0
  VoltageSagL2Count := 0
  VoltageSagL3Count := 0
  VoltageSwellL1Count := 0
  VoltageSwellL2Count := 0
  VoltageSwellL3Count := 0
  AnyPowerFailCount := 0
  LongPowerFailCount := 0
  TotalGasM3 := 0
  GasTimestamp := 0
  GasUniqueID := ""
  External := []

/-- Every gauge and every registry that exists in `w` is the same in `w'`. -/
def Untouched (w w' : World) : Prop :=
  ∀ j, j < w.next → w'.gauges j = w.gauges j ∧ w'.registries j = w.registries j

/-- The response a request gets from a process that serves nothing else: the handler
run on the pristine state. -/
def respondsAlone (env : Env) (r : Request) : Option ResponseWriter :=
  match homewizardHandler env r (World.pristine 0) with
  | .ok (rw, _) => some rw
  | .error _ => none

/-- The environment `env'`, read from its start, presents request `r` with what `env`
presents it with after `reads` clock readings: the same answer of the target's device,
the same decoding of that answer and the same measured duration. -/
def SameInputs (env : Env) (reads : Nat) (env' : Env) (r : Request) : Prop :=
  env'.device (dataURL (r.Query.Get "target")) = env.device (dataURL (r.Query.Get "target")) ∧
  (∀ resp, env.device (dataURL (r.Query.Get "target")) = .resp resp →
    env'.decode resp.Body = env.decode resp.Body) ∧
  (subMono (env'.monotonic 1) (env'.monotonic 0)).Seconds =
    (subMono (env.monotonic (reads + 1)) (env.monotonic reads)).Seconds

/-! ## Example inputs -/

/-- A document with `"wifi_strength": -45` and `"active_power_w": 1200.5`. -/
def exampleDoc : P1 :=
  { P1.zero with WifiStrength := -45, ActivePowerW := 2401 / 2 }

/-- A world with one device, at `192.168.1.50`, that answers 200 with a body decoding to
`exampleDoc`; every other GET ends in an error.  A URL that parses is requested once,
without redirects.  The clock advances a quarter of a second between readings. -/
def exampleEnv : Env where
  monotonic k := 1000 + 250000000 * k
  expires _ := false
  device url :=
    if url = "http://192.168.1.50/api/v1/data" then .resp ⟨200, "doc"⟩
    else .err "connection refused"
  decode body := if body = "doc" then some exampleDoc else none
  wire url := [url]

/-- A world whose device answers every GET with 204 and an empty body. -/
def noContentEnv : Env where
  monotonic k := 1000 + 250000000 * k
  expires _ := false
  device _ := .resp ⟨204, ""⟩
  decode _ := none
  wire url := [url]

/-- A world in which every GET ends in the error of a host name that does not parse, and
a URL that does parse is requested once, without redirects. -/
def spaceEnv : Env where
  monotonic k := 1000 + 250000000 * k
  expires _ := false
  device _ := .err "invalid character in host name"
  decode _ := none
  wire url := [url]

/-- The request `GET /probe?target=192.168.1.50`. -/
def exampleRequest : Request :=
  { Query := [("target", ["192.168.1.50"])], ctx := .request false }

/-- The request `GET /probe?target=192.168.1.50` of a scraper that goes away before the
device answers. -/
def cancelledRequest : Request :=
  { Query := [("target", ["192.168.1.50"])], ctx := .request true }

/-- The request `GET /probe?target=10.0.0.9`, to an address where nothing listens. -/
def refusedRequest : Request :=
  { Query := [("target", ["10.0.0.9"])], ctx := .request false }

/-- The request `GET /probe`, without a target. -/
def bareRequest : Request :=
  { Query := [], ctx := .request false }

/-! ## Closed forms

The proofs run the two functions once, symbolically, and record the outcome in the
terms below (`probeHomewizard_run`, `homewizardHandler_run`). -/

/-- What lines 127-138 of `probeHomewizard` make of the device's answer: the decoded
document, or the line logged before `return false`. -/
def fetch (env : Env) (target : String) : Except LogLine P1 :=
  match roundTrip env .background (dataURL target) with
  | .err e => .error (.queryFailed target (.err e))
  | .resp resp =>
    if resp.StatusCode ≠ StatusOK then .error (.queryFailed target (.resp resp))
    else
      match env.decode resp.Body with
      | none => .error (.unmarshalFailed target)
      | some p1 => .ok p1

/-- Whether the fetch produced a document. -/
def fetched : Except LogLine P1 → Bool
  | .ok _ => true
  | .error _ => false

/-- The events `probeHomewizard` adds after its GET. -/
def fetchLog : Except LogLine P1 → List Event
  | .ok _ => []
  | .error l => [.log l]

/-- The value a device gauge ends with: the field of the document, or the default. -/
def fieldOrZero (doc : Except LogLine P1) (field : P1 → Float64) : Float64 :=
  match doc with
  | .ok p1 => field p1
  | .error _ => 0

/-- The line the handler logs last. -/
def resultLine (doc : Except LogLine P1) (target : String) (duration : Float64) : LogLine :=
  match doc with
  | .ok _ => .probeSucceeded target duration
  | .error _ => .probeFailed target duration

/-- The response of a probe that ran: the ten families, sorted by name. -/
def exposition (doc : Except LogLine P1) (duration : Float64) : ResponseWriter :=
  { status := StatusOK, contentType := .exposition,
    body := .metrics
      [⟨"homewizard_active_power_l1_watts", "current (L1) usage of power meassured in watts (w)",
          fieldOrZero doc P1.ActivePowerL1W⟩,
       ⟨"homewizard_active_power_l2_watts", "current (L2) usage of power meassured in watts (w)",
          fieldOrZero doc P1.ActivePowerL2W⟩,
       ⟨"homewizard_active_power_l3_watts", "current (L3) usage of power meassured in watts (w)",
          fieldOrZero doc P1.ActivePowerL3W⟩,
       ⟨"homewizard_active_power_watts", "current (total) usage of power meassured in watts (W)",
          fieldOrZero doc P1.ActivePowerW⟩,
       ⟨"homewizard_any_power_fail_count", "number of power failures meassured by P1",
          fieldOrZero doc P1.AnyPowerFailCount⟩,
       ⟨"homewizard_gas_m3_total", "total usage of gas reported by the gas meter in m3",
          fieldOrZero doc P1.TotalGasM3⟩,
       ⟨"homewizard_long_power_fail_count", "number of long power failures meassured by P1",
          fieldOrZero doc P1.LongPowerFailCount⟩,
       ⟨"homewizard_wifi_strength_decibels", "strength of WIFI signal for homewizard in decibels",
          fieldOrZero doc P1.WifiStrength⟩,
       ⟨"probe_duration_seconds", "Returns how long the probe took to complete in seconds",
          duration⟩,
       ⟨"probe_success", "Displays whether or not the probe was a success",
          if fetched doc then 1 else 0⟩] }

/-! ## Running the monad -/

theorem bind_def {α β : Type} (m : M α) (f : α → M β) (w : World) :
    (m >>= f) w = match m w with
      | .error e => .error e
      | .ok (a, w') => f a w' := rfl

theorem pure_def {α : Type} (a : α) (w : World) : (pure a : M α) w = .ok (a, w) := rfl

theorem upd_same {α : Type} (f : Nat → α) (i : Nat) (a : α) : upd f i a i = a := by
  simp [upd]

theorem upd_ne {α : Type} (f : Nat → α) (i j : Nat) (a : α) (h : j ≠ i) :
    upd f i a j = f j := by
  simp [upd, h]

theorem upd_lt {α : Type} (f : Nat → α) (i j : Nat) (a : α) (h : j < i) :
    upd f i a j = f j :=
  upd_ne f i j a (Nat.ne_of_lt h)

theorem upd_upd {α : Type} (f : Nat → α) (i : Nat) (a b : α) :
    upd (upd f i a) i b = upd f i b := by
  funext j
  by_cases h : j = i <;> simp [upd, h]

/-- A gauge allocated outside a list of references does not change what the list's
gauges are called. -/
theorem exists_upd_old (l : List Nat) (f : Nat → Gauge) (i : Nat) (a : Gauge) (s : String)
    (hi : i ∉ l) :
    (∃ x ∈ l, (upd f i a x).opts.Name = s) ↔ ∃ x ∈ l, (f x).opts.Name = s := by
  have key : ∀ x ∈ l, upd f i a x = f x := fun x hx =>
    upd_ne f i x a (fun e => hi (by rw [← e]; exact hx))
  constructor
  · rintro ⟨x, hx, h⟩
    exact ⟨x, hx, by rw [← key x hx]; exact h⟩
  · rintro ⟨x, hx, h⟩
    exact ⟨x, hx, by rw [key x hx]; exact h⟩

/-- All ten metric names pass `IsValidMetricName`. -/
theorem valid_names :
    IsValidMetricName "probe_success" = true ∧
    IsValidMetricName "probe_duration_seconds" = true ∧
    IsValidMetricName "homewizard_wifi_strength_decibels" = true ∧
    IsValidMetricName "homewizard_active_power_watts" = true ∧
    IsValidMetricName "homewizard_active_power_l1_watts" = true ∧
    IsValidMetricName "homewizard_active_power_l2_watts" = true ∧
    IsValidMetricName "homewizard_active_power_l3_watts" = true ∧
    IsValidMetricName "homewizard_any_power_fail_count" = true ∧
    IsValidMetricName "homewizard_long_power_fail_count" = true ∧
    IsValidMetricName "homewizard_gas_m3_total" = true := by
  decide

/-! ## The handler, run symbolically -/

/-- A request without a target: the handler allocates its two gauges, writes the 400
response and touches nothing else. -/
theorem homewizardHandler_run_empty (env : Env) (r : Request) (w : World)
    (he : r.Query.Get "target" = "") :
    ∃ w', homewizardHandler env r w =
        .ok (httpError "Target parameter is missing" StatusBadRequest, w') ∧
      w'.next = w.next + 2 ∧ w'.reads = w.reads ∧ w'.trace = w.trace ∧
      w'.sent = w.sent ∧
      w'.registries = w.registries ∧ ∀ j, j < w.next → w'.gauges j = w.gauges j := by
  refine ⟨{ w with
      next := w.next + 1 + 1
      gauges := upd (upd w.gauges w.next
        ⟨⟨"probe_success", "Displays whether or not the probe was a success"⟩, 0⟩) (w.next + 1)
        ⟨⟨"probe_duration_seconds", "Returns how long the probe took to complete in seconds"⟩,
          0⟩ }, ?_, rfl, rfl, rfl, rfl, rfl, ?_⟩
  · simp only [homewizardHandler, bind_def, NewGauge, he, if_true, pure_def]
  · intro j hj
    show upd (upd w.gauges w.next _) (w.next + 1) _ j = w.gauges j
    rw [upd_lt _ _ _ _ (by omega), upd_lt _ _ _ _ hj]

set_option maxHeartbeats 1000000 in
/-- A request with a target: the handler returns the closed-form exposition; the final
state is described field by field. -/
theorem homewizardHandler_run (env : Env) (r : Request) (w : World)
    (hne : r.Query.Get "target" ≠ "") :
    ∃ w', homewizardHandler env r w =
        .ok (exposition (fetch env (r.Query.Get "target"))
          (subMono (env.monotonic (w.reads + 1)) (env.monotonic w.reads)).Seconds, w') ∧
      w'.next = w.next + 11 ∧ w'.reads = w.reads + 2 ∧
      w'.trace = w.trace ++ .clock (env.monotonic w.reads) ::
        .get (dataURL (r.Query.Get "target")) :: fetchLog (fetch env (r.Query.Get "target")) ++
        [.clock (env.monotonic (w.reads + 1)),
         .log (resultLine (fetch env (r.Query.Get "target")) (r.Query.Get "target")
          (subMono (env.monotonic (w.reads + 1)) (env.monotonic w.reads)).Seconds)] ∧
      registeredNames w' (w.next + 2) = metaNames ++ deviceNames ∧
      (∀ j, j < w.next → w'.gauges j = w.gauges j ∧ w'.registries j = w.registries j) := by
  obtain ⟨t, ht⟩ : ∃ t, r.Query.Get "target" = t := ⟨_, rfl⟩
  rw [ht] at hne
  simp [homewizardHandler, probeHomewizard, bind_def, pure_def, NewGauge, NewRegistry,
    MustRegister, GaugeSet, timeNow, timeSince, readClock, logPrintf, clientGet, roundTrip,
    Context.done, promhttpServeHTTP, Gather, ht, hne, StatusOK, valid_names, upd_same, upd_ne,
    upd_upd, Nat.add_assoc]
  rcases hdev : env.device (dataURL t) with e | resp
  · simp [fetch, roundTrip, Context.done, hdev, bind_def, pure_def, GaugeSet, logPrintf, Gather,
      exposition, fetchLog, fieldOrZero, fetched, resultLine, registeredNames, metaNames,
      deviceNames, upd_same, upd_ne, upd_upd, StatusOK, Nat.add_assoc]
    simp only [insertFamily, String.reduceLT, ↓reduceIte, true_and]
    simp [upd_same, upd_ne, upd_upd, Nat.add_assoc]
    intro j hj
    constructor <;> repeat rw [upd_lt _ _ _ _ (by omega)]
  · by_cases hs : resp.StatusCode = 200
    · rcases hdec : env.decode resp.Body with _ | p
      · simp [fetch, roundTrip, Context.done, hdev, bind_def, pure_def, GaugeSet, logPrintf,
          Gather, exposition, fetchLog, fieldOrZero, fetched, resultLine, registeredNames,
          metaNames, deviceNames, upd_same, upd_ne, upd_upd, StatusOK, Nat.add_assoc, hs, hdec]
        simp only [insertFamily, String.reduceLT, ↓reduceIte, true_and]
        simp [upd_same, upd_ne, upd_upd, Nat.add_assoc]
        intro j hj
        constructor <;> repeat rw [upd_lt _ _ _ _ (by omega)]
      · simp [fetch, roundTrip, Context.done, hdev, bind_def, pure_def, GaugeSet, logPrintf,
          Gather, exposition, fetchLog, fieldOrZero, fetched, resultLine, registeredNames,
          metaNames, deviceNames, upd_same, upd_ne, upd_upd, StatusOK, Nat.add_assoc, hs, hdec]
        simp only [insertFamily, String.reduceLT, ↓reduceIte, true_and]
        simp [upd_same, upd_ne, upd_upd, Nat.add_assoc]
        intro j hj
        constructor <;> repeat rw [upd_lt _ _ _ _ (by omega)]
    · simp [fetch, roundTrip, Context.done, hdev, bind_def, pure_def, GaugeSet, logPrintf,
        Gather, exposition, fetchLog, fieldOrZero, fetched, resultLine, registeredNames,
        metaNames, deviceNames, upd_same, upd_ne, upd_upd, StatusOK, Nat.add_assoc, hs]
      simp only [insertFamily, String.reduceLT, ↓reduceIte, true_and]
      simp [upd_same, upd_ne, upd_upd, Nat.add_assoc]
      intro j hj
      constructor <;> repeat rw [upd_lt _ _ _ _ (by omega)]

/-! ## The probe, run symbolically -/

set_option maxHeartbeats 1000000 in
/-- The probe on a registry it can be handed: the result is whether the fetch
produced a document; the final state is described field by field. -/
theorem probeHomewizard_run (env : Env) (ctx : Context) (t : String) (reg : Nat) (w : World)
    (hreg : Registrable w reg) :
    ∃ w', probeHomewizard env ctx t reg w = .ok (fetched (fetch env t), w') ∧
      w'.next = w.next + 8 ∧ w'.reads = w.reads ∧
      w'.trace = w.trace ++ .get (dataURL t) :: fetchLog (fetch env t) ∧
      w'.registries = upd w.registries reg (w.registries reg ++ List.range' w.next 8) ∧
      (∀ j, j < w.next → w'.gauges j = w.gauges j) ∧
      (List.range' w.next 8).map (fun g => ((w'.gauges g).opts.Name, (w'.gauges g).val)) =
        [("homewizard_wifi_strength_decibels", fieldOrZero (fetch env t) P1.WifiStrength),
         ("homewizard_active_power_watts", fieldOrZero (fetch env t) P1.ActivePowerW),
         ("homewizard_active_power_l1_watts", fieldOrZero (fetch env t) P1.ActivePowerL1W),
         ("homewizard_active_power_l2_watts", fieldOrZero (fetch env t) P1.ActivePowerL2W),
         ("homewizard_active_power_l3_watts", fieldOrZero (fetch env t) P1.ActivePowerL3W),
         ("homewizard_any_power_fail_count", fieldOrZero (fetch env t) P1.AnyPowerFailCount),
         ("homewizard_long_power_fail_count", fieldOrZero (fetch env t) P1.LongPowerFailCount),
         ("homewizard_gas_m3_total", fieldOrZero (fetch env t) P1.TotalGasM3)] ∧
      w'.sent = w.sent ++ clientSends env (dataURL t) := by
  have hlt : ∀ k, w.next + k ∉ w.registries reg := by
    intro k hk
    have := (hreg _ hk).1
    omega
  have hlt0 : w.next ∉ w.registries reg := hlt 0
  have hnm : ∀ s ∈ deviceNames, ¬ ∃ x ∈ w.registries reg, (w.gauges x).opts.Name = s := by
    rintro s hs ⟨x, hx, rfl⟩
    exact (hreg x hx).2 hs
  simp only [deviceNames, List.forall_mem_cons, List.not_mem_nil, false_implies, implies_true,
    and_true] at hnm
  obtain ⟨h0, h1, h2, h3, h4, h5, h6, h7⟩ := hnm
  simp [probeHomewizard, bind_def, pure_def, NewGauge, MustRegister, GaugeSet, logPrintf,
    clientGet, roundTrip, Context.done, StatusOK, valid_names, upd_same, upd_ne, upd_upd,
    exists_upd_old, Nat.add_assoc, hlt, hlt0, h0, h1, h2, h3, h4, h5, h6, h7]
  rcases hdev : env.device (dataURL t) with e | resp
  · simp [fetch, roundTrip, Context.done, hdev, bind_def, pure_def, GaugeSet, logPrintf,
      fetchLog, fieldOrZero, fetched, upd_same, upd_ne, upd_upd, StatusOK, Nat.add_assoc,
      List.range']
    intro j hj
    repeat rw [upd_lt _ _ _ _ (by omega)]
  · by_cases hs : resp.StatusCode = 200
    · rcases hdec : env.decode resp.Body with _ | p
      · simp [fetch, roundTrip, Context.done, hdev, bind_def, pure_def, GaugeSet, logPrintf,
          fetchLog, fieldOrZero, fetched, upd_same, upd_ne, upd_upd, StatusOK, Nat.add_assoc,
          List.range', hs, hdec]
        intro j hj
        repeat rw [upd_lt _ _ _ _ (by omega)]
      · simp [fetch, roundTrip, Context.done, hdev, bind_def, pure_def, GaugeSet, logPrintf,
          fetchLog, fieldOrZero, fetched, upd_same, upd_ne, upd_upd, StatusOK, Nat.add_assoc,
          List.range', hs, hdec]
        intro j hj
        repeat rw [upd_lt _ _ _ _ (by omega)]
    · simp [fetch, roundTrip, Context.done, hdev, bind_def, pure_def, GaugeSet, logPrintf,
        fetchLog, fieldOrZero, fetched, upd_same, upd_ne, upd_upd, StatusOK, Nat.add_assoc,
        List.range', hs]
      intro j hj
      repeat rw [upd_lt _ _ _ _ (by omega)]
/-! ## Durations -/

theorem roundHalfEven_nonneg (q : ℚ) (h : 0 ≤ q) : 0 ≤ roundHalfEven q := by
  have hf : 0 ≤ ⌊q⌋ := Int.floor_nonneg.mpr h
  unfold roundHalfEven
  simp only
  split_ifs <;> linarith

theorem roundFloat64_nonneg (q : ℚ) (h : 0 ≤ q) : 0 ≤ roundFloat64 q := by
  unfold roundFloat64
  split_ifs with h0
  · exact le_refl _
  · have hp : (0 : ℚ) < (2 : ℚ) ^ ulpExp q := zpow_pos (by norm_num) _
    have hq : 0 ≤ q / (2 : ℚ) ^ ulpExp q := div_nonneg h hp.le
    have hr : (0 : ℚ) ≤ (roundHalfEven (q / (2 : ℚ) ^ ulpExp q) : ℚ) := by
      exact_mod_cast roundHalfEven_nonneg _ hq
    exact mul_nonneg hr hp.le

theorem Seconds_nonneg (d : Duration) (h : 0 ≤ d) : 0 ≤ d.Seconds := by
  unfold Duration.Seconds
  have h1 : (0 : ℤ) ≤ Int.tdiv d Second := Int.tdiv_nonneg h (by decide)
  have h2 : (0 : ℤ) ≤ Int.tmod d Second := Int.tmod_nonneg _ h
  have h1q : (0 : ℚ) ≤ (Int.tdiv d Second : ℚ) := by exact_mod_cast h1
  have h2q : (0 : ℚ) ≤ (Int.tmod d Second : ℚ) := by exact_mod_cast h2
  simp only
  apply roundFloat64_nonneg
  apply add_nonneg (roundFloat64_nonneg _ h1q)
  apply roundFloat64_nonneg
  exact div_nonneg (roundFloat64_nonneg _ h2q) (by norm_num)

theorem subMono_nonneg (t u : Time) (h : u ≤ t) : 0 ≤ subMono t u := by
  unfold subMono wrapInt64 maxDuration minDuration
  simp only
  split_ifs with h1 h2
  · decide
  · exact absurd h2.2 (not_lt.mpr h)
  · rw [not_and_or] at h1
    rcases h1 with h1 | h1
    · exact not_lt.mp h1
    · have h3 : t = u := le_antisymm (not_lt.mp h1) h
      subst h3
      simp

/-- The binary exponent of a positive rational, from the two powers of two around it. -/
theorem log_two_eq (q : ℚ) (e : ℤ) (hq : 0 < q) (h₁ : (2 : ℚ) ^ e ≤ q)
    (h₂ : q < (2 : ℚ) ^ (e + 1)) : Int.log 2 |q| = e := by
  rw [abs_of_pos hq]
  have hb : 1 < (2 : ℕ) := by norm_num
  have hle : e ≤ Int.log 2 q := (Int.zpow_le_iff_le_log hb hq).mp (by exact_mod_cast h₁)
  have hlt : Int.log 2 q < e + 1 := (Int.lt_zpow_iff_log_lt hb hq).mp (by exact_mod_cast h₂)
  omega

/-- Rounding a positive normal number whose binary exponent is known. -/
theorem roundFloat64_eq (q : ℚ) (e : ℤ) (hq : 0 < q) (h₁ : (2 : ℚ) ^ e ≤ q)
    (h₂ : q < (2 : ℚ) ^ (e + 1)) (he : -1022 ≤ e) :
    roundFloat64 q = roundHalfEven (q / (2 : ℚ) ^ (e - 52)) * (2 : ℚ) ^ (e - 52) := by
  unfold roundFloat64 ulpExp
  rw [log_two_eq q e hq h₁ h₂, if_neg (ne_of_gt hq), max_eq_left (by omega)]

/-- Rounding to the nearest integer, from the integer below. -/
theorem roundHalfEven_eq (q : ℚ) (f : ℤ) (h₁ : (f : ℚ) ≤ q) (h₂ : q < f + 1) :
    roundHalfEven q =
      if q - f < 1 / 2 then f else if 1 / 2 < q - f then f + 1
      else if f % 2 = 0 then f else f + 1 := by
  have hf : ⌊q⌋ = f := Int.floor_eq_iff.mpr ⟨h₁, h₂⟩
  unfold roundHalfEven
  simp only [hf]

/-- A quarter of a second, exactly representable, converts to `0.25`. -/
theorem Seconds_quarter : Duration.Seconds 250000000 = 1 / 4 := by
  have h₀ : roundFloat64 ((0 : ℤ) : ℚ) = 0 := by simp [roundFloat64]
  have h₁ : roundFloat64 ((250000000 : ℤ) : ℚ) = 250000000 := by
    rw [roundFloat64_eq _ 27 (by norm_num) (by norm_num) (by norm_num) (by norm_num),
      roundHalfEven_eq _ 8388608000000000 (by norm_num) (by norm_num)]
    norm_num
  have h₂ : roundFloat64 ((1 : ℚ) / 4) = 1 / 4 := by
    rw [roundFloat64_eq _ (-2) (by norm_num) (by norm_num) (by norm_num) (by norm_num),
      roundHalfEven_eq _ 4503599627370496 (by norm_num) (by norm_num)]
    norm_num
  have hd : Int.tdiv (250000000 : Int) Second = 0 := by decide
  have hm : Int.tmod (250000000 : Int) Second = 250000000 := by decide
  unfold Duration.Seconds
  simp only [hd, hm, h₀, h₁]
  have h₃ : (250000000 : ℚ) / 1000000000 = 1 / 4 := by norm_num
  rw [h₃, h₂, zero_add, h₂]

/-- A tenth of a second is not representable: it converts to the binary64 number
nearest to 0.1, which is `3602879701896397 / 2^55`. -/
theorem Seconds_tenth :
    Duration.Seconds 100000000 = 3602879701896397 / 36028797018963968 := by
  have h₀ : roundFloat64 ((0 : ℤ) : ℚ) = 0 := by simp [roundFloat64]
  have h₁ : roundFloat64 ((100000000 : ℤ) : ℚ) = 100000000 := by
    rw [roundFloat64_eq _ 26 (by norm_num) (by norm_num) (by norm_num) (by norm_num),
      roundHalfEven_eq _ 6710886400000000 (by norm_num) (by norm_num)]
    norm_num
  have h₂ : roundFloat64 ((1 : ℚ) / 10) = 3602879701896397 / 36028797018963968 := by
    rw [roundFloat64_eq _ (-4) (by norm_num) (by norm_num) (by norm_num) (by norm_num),
      roundHalfEven_eq _ 7205759403792793 (by norm_num) (by norm_num)]
    norm_num
  have h₃ : roundFloat64 ((3602879701896397 : ℚ) / 36028797018963968) =
      3602879701896397 / 36028797018963968 := by
    rw [roundFloat64_eq _ (-4) (by norm_num) (by norm_num) (by norm_num) (by norm_num),
      roundHalfEven_eq _ 7205759403792794 (by norm_num) (by norm_num)]
    norm_num
  have hd : Int.tdiv (100000000 : Int) Second = 0 := by decide
  have hm : Int.tmod (100000000 : Int) Second = 100000000 := by decide
  unfold Duration.Seconds
  simp only [hd, hm, h₀, h₁]
  have h₄ : (100000000 : ℚ) / 1000000000 = 1 / 10 := by norm_num
  rw [h₄, h₂, zero_add, h₃]

/-! ## Facts about the closed forms -/

theorem gets_append (a b : List Event) : gets (a ++ b) = gets a ++ gets b := by
  induction a with
  | nil => rfl
  | cons e es ih => cases e <;> simp [gets, ih]

theorem gets_fetchLog (doc : Except LogLine P1) : gets (fetchLog doc) = [] := by
  cases doc <;> rfl

theorem fetch_ok (env : Env) (t body : String) (p1 : P1)
    (hget : env.device (dataURL t) = .resp ⟨StatusOK, body⟩) (hdecode : env.decode body = some p1) :
    fetch env t = .ok p1 := by
  simp [fetch, roundTrip, Context.done, hget, hdecode]

theorem fetch_error_iff (env : Env) (t : String) :
    fetched (fetch env t) = false ↔
      ((∃ e, env.device (dataURL t) = .err e) ∨
       (∃ resp, env.device (dataURL t) = .resp resp ∧ resp.StatusCode ≠ StatusOK) ∨
       (∃ resp, env.device (dataURL t) = .resp resp ∧ env.decode resp.Body = none)) := by
  unfold fetch roundTrip
  simp only [Context.done, Bool.false_eq_true, if_false]
  rcases hdev : env.device (dataURL t) with e | resp
  · simp [fetched]
  · by_cases hs : resp.StatusCode = StatusOK
    · rcases hdec : env.decode resp.Body with _ | p
      · simp [fetched, hs, hdec]
      · simp [fetched, hs, hdec]
    · simp [fetched, hs]

theorem exposition_gauges (doc : Except LogLine P1) (d : Float64) :
    (exposition doc d).status = 200 ∧
    (exposition doc d).names =
      ["homewizard_active_power_l1_watts", "homewizard_active_power_l2_watts",
       "homewizard_active_power_l3_watts", "homewizard_active_power_watts",
       "homewizard_any_power_fail_count", "homewizard_gas_m3_total",
       "homewizard_long_power_fail_count", "homewizard_wifi_strength_decibels",
       "probe_duration_seconds", "probe_success"] ∧
    (exposition doc d).gauge "homewizard_wifi_strength_decibels" = some (fieldOrZero doc P1.WifiStrength) ∧
    (exposition doc d).gauge "homewizard_active_power_watts" = some (fieldOrZero doc P1.ActivePowerW) ∧
    (exposition doc d).gauge "homewizard_active_power_l1_watts" = some (fieldOrZero doc P1.ActivePowerL1W) ∧
    (exposition doc d).gauge "homewizard_active_power_l2_watts" = some (fieldOrZero doc P1.ActivePowerL2W) ∧
    (exposition doc d).gauge "homewizard_active_power_l3_watts" = some (fieldOrZero doc P1.ActivePowerL3W) ∧
    (exposition doc d).gauge "homewizard_any_power_fail_count" = some (fieldOrZero doc P1.AnyPowerFailCount) ∧
    (exposition doc d).gauge "homewizard_long_power_fail_count" = some (fieldOrZero doc P1.LongPowerFailCount) ∧
    (exposition doc d).gauge "homewizard_gas_m3_total" = some (fieldOrZero doc P1.TotalGasM3) ∧
    (exposition doc d).gauge "probe_duration_seconds" = some d ∧
    (exposition doc d).gauge "probe_success" = some (if fetched doc then 1 else 0) := by
  simp [exposition, ResponseWriter.gauge, ResponseWriter.names, List.find?, StatusOK]

/-! ## The claims -/

/-- C1.  A request with a non-empty target whose GET returns status 200 with a body that
decodes into a `P1`: the handler responds, each of the eight device gauges in the
response holds the decoded field it is named after, unchanged, and `probe_success`
is 1. -/
theorem homewizardHandler_success_exports_fields (env : Env) (r : Request) (w : World)
    (body : String) (p1 : P1)
    (htarget : r.Query.Get "target" ≠ "")
    (hget : roundTrip env .background (dataURL (r.Query.Get "target")) = .resp ⟨StatusOK, body⟩)
    (hdecode : env.decode body = some p1) :
    ∃ rw w', homewizardHandler env r w = .ok (rw, w') ∧
      rw.gauge "homewizard_wifi_strength_decibels" = some p1.WifiStrength ∧
      rw.gauge "homewizard_active_power_watts" = some p1.ActivePowerW ∧
      rw.gauge "homewizard_active_power_l1_watts" = some p1.ActivePowerL1W ∧
      rw.gauge "homewizard_active_power_l2_watts" = some p1.ActivePowerL2W ∧
      rw.gauge "homewizard_active_power_l3_watts" = some p1.ActivePowerL3W ∧
      rw.gauge "homewizard_any_power_fail_count" = some p1.AnyPowerFailCount ∧
      rw.gauge "homewizard_long_power_fail_count" = some p1.LongPowerFailCount ∧
      rw.gauge "homewizard_gas_m3_total" = some p1.TotalGasM3 ∧
      rw.gauge "probe_success" = some 1 := by
  obtain ⟨w', hrun, -⟩ := homewizardHandler_run env r w htarget
  have hdoc : fetch env (r.Query.Get "target") = .ok p1 :=
    fetch_ok env _ body p1 (by simpa [roundTrip, Context.done] using hget) hdecode
  rw [hdoc] at hrun
  obtain ⟨-, -, g1, g2, g3, g4, g5, g6, g7, g8, -, g10⟩ := exposition_gauges (.ok p1)
    (subMono (env.monotonic (w.reads + 1)) (env.monotonic w.reads)).Seconds
  exact ⟨_, w', hrun, g1, g2, g3, g4, g5, g6, g7, g8, g10⟩

/-- C1, at the example: the device at 192.168.1.50 reports a wifi strength of -45 and an
active power of 1200.5, and the response carries exactly these with `probe_success` 1. -/
theorem homewizardHandler_success_exports_fields_witness :
    exampleRequest.Query.Get "target" ≠ "" ∧
    roundTrip exampleEnv .background (dataURL (exampleRequest.Query.Get "target")) =
      .resp ⟨StatusOK, "doc"⟩ ∧
    exampleEnv.decode "doc" = some exampleDoc ∧
    ∃ rw w', homewizardHandler exampleEnv exampleRequest (World.pristine 0) = .ok (rw, w') ∧
      rw.gauge "homewizard_wifi_strength_decibels" = some (-45) ∧
      rw.gauge "homewizard_active_power_watts" = some (2401 / 2) ∧
      rw.gauge "probe_success" = some 1 := by
  have h1 : exampleRequest.Query.Get "target" ≠ "" := by decide
  have h2 : roundTrip exampleEnv .background (dataURL (exampleRequest.Query.Get "target")) =
      .resp ⟨StatusOK, "doc"⟩ := by decide
  have h3 : exampleEnv.decode "doc" = some exampleDoc := by rfl
  obtain ⟨rw, w', hrun, g1, g2, -, -, -, -, -, -, g10⟩ :=
    homewizardHandler_success_exports_fields exampleEnv exampleRequest (World.pristine 0) "doc"
      exampleDoc h1 h2 h3
  exact ⟨h1, h2, h3, rw, w', hrun, g1, g2, g10⟩

/-- C2.  A request with a non-empty target whose GET fails (transport error, a status
other than 200, or a body that does not decode): the handler still responds with HTTP
status 200, `probe_success` is 0 and each of the eight device gauges is 0. -/
theorem homewizardHandler_failure_reports_zero (env : Env) (r : Request) (w : World)
    (htarget : r.Query.Get "target" ≠ "")
    (hfail :
      (∃ e, roundTrip env .background (dataURL (r.Query.Get "target")) = .err e) ∨
      (∃ resp, roundTrip env .background (dataURL (r.Query.Get "target")) = .resp resp ∧
        resp.StatusCode ≠ StatusOK) ∨
      (∃ resp, roundTrip env .background (dataURL (r.Query.Get "target")) = .resp resp ∧
        env.decode resp.Body = none)) :
    ∃ rw w', homewizardHandler env r w = .ok (rw, w') ∧
      rw.status = 200 ∧
      rw.gauge "probe_success" = some 0 ∧
      rw.gauge "homewizard_wifi_strength_decibels" = some 0 ∧
      rw.gauge "homewizard_active_power_watts" = some 0 ∧
      rw.gauge "homewizard_active_power_l1_watts" = some 0 ∧
      rw.gauge "homewizard_active_power_l2_watts" = some 0 ∧
      rw.gauge "homewizard_active_power_l3_watts" = some 0 ∧
      rw.gauge "homewizard_any_power_fail_count" = some 0 ∧
      rw.gauge "homewizard_long_power_fail_count" = some 0 ∧
      rw.gauge "homewizard_gas_m3_total" = some 0 := by
  obtain ⟨w', hrun, -⟩ := homewizardHandler_run env r w htarget
  have hdoc : fetched (fetch env (r.Query.Get "target")) = false :=
    (fetch_error_iff env _).mpr (by simpa [roundTrip, Context.done] using hfail)
  obtain ⟨hs, -, g1, g2, g3, g4, g5, g6, g7, g8, -, g10⟩ :=
    exposition_gauges (fetch env (r.Query.Get "target"))
      (subMono (env.monotonic (w.reads + 1)) (env.monotonic w.reads)).Seconds
  rcases hf : fetch env (r.Query.Get "target") with l | p
  · rw [hf] at hrun hs g1 g2 g3 g4 g5 g6 g7 g8 g10
    exact ⟨_, w', hrun, hs, g10, g1, g2, g3, g4, g5, g6, g7, g8⟩
  · rw [hf] at hdoc
    exact absurd hdoc (by simp [fetched])

/-- C2, at the example: nothing listens at 10.0.0.9, and the response is a 200 whose
`probe_success` and wifi strength are 0. -/
theorem homewizardHandler_failure_reports_zero_witness :
    refusedRequest.Query.Get "target" ≠ "" ∧
    roundTrip exampleEnv .background (dataURL (refusedRequest.Query.Get "target")) =
      .err "connection refused" ∧
    ∃ rw w', homewizardHandler exampleEnv refusedRequest (World.pristine 0) = .ok (rw, w') ∧
      rw.status = 200 ∧ rw.gauge "probe_success" = some 0 ∧
      rw.gauge "homewizard_wifi_strength_decibels" = some 0 := by
  have h1 : refusedRequest.Query.Get "target" ≠ "" := by decide
  have h2 : roundTrip exampleEnv .background (dataURL (refusedRequest.Query.Get "target")) =
      .err "connection refused" := by decide
  obtain ⟨rw, w', hrun, hs, g0, g1, -⟩ :=
    homewizardHandler_failure_reports_zero exampleEnv refusedRequest (World.pristine 0) h1
      (Or.inl ⟨_, h2⟩)
  exact ⟨h1, h2, rw, w', hrun, hs, g0, g1⟩

/-- C3.  A request whose `target` parameter is absent or empty: the handler responds
with status 400 and the plain-text body `Target parameter is missing`; the trace is
unchanged (no GET, no log line), nothing has been put on the wire, nothing but the
handler's own two gauges has been allocated and no registry has changed, so
`probeHomewizard` has not run. -/
theorem homewizardHandler_missing_target (env : Env) (r : Request) (w : World)
    (htarget : (∀ vs, ("target", vs) ∉ r.Query) ∨ r.Query.Get "target" = "") :
    ∃ rw w', homewizardHandler env r w = .ok (rw, w') ∧
      rw.status = 400 ∧ rw.contentType = .textPlain ∧
      rw.body = .text "Target parameter is missing\n" ∧
      w'.trace = w.trace ∧ gets w'.trace = gets w.trace ∧
      w'.next = w.next + 2 ∧ w'.registries = w.registries ∧ w'.sent = w.sent := by
  have he : r.Query.Get "target" = "" := by
    rcases htarget with h | h
    · have hl : r.Query.lookup "target" = none := by
        rw [List.lookup_eq_none_iff]
        intro p hp
        rcases p with ⟨k, vs⟩
        by_cases hk : k = "target"
        · subst hk
          exact absurd hp (h vs)
        · simpa [bne_iff_ne] using fun e : "target" = k => hk e.symm
      simp [Values.Get, hl]
    · exact h
  obtain ⟨w', hrun, hnext, -, htrace, hsent, hreg, -⟩ :=
    homewizardHandler_run_empty env r w he
  refine ⟨_, w', hrun, rfl, rfl, ?_, htrace, by rw [htrace], hnext, hreg, hsent⟩
  decide

/-- C3, at the example: `GET /probe` answers 400 from the pristine state and leaves the
trace empty. -/
theorem homewizardHandler_missing_target_witness :
    (∀ vs, ("target", vs) ∉ bareRequest.Query) ∧
    ∃ rw w', homewizardHandler exampleEnv bareRequest (World.pristine 0) = .ok (rw, w') ∧
      rw.status = 400 ∧ rw.body = .text "Target parameter is missing\n" ∧ w'.trace = [] := by
  have h1 : ∀ vs, ("target", vs) ∉ bareRequest.Query := fun vs h => by cases h
  obtain ⟨rw, w', hrun, hs, -, hb, ht, -⟩ :=
    homewizardHandler_missing_target exampleEnv bareRequest (World.pristine 0) (Or.inl h1)
  exact ⟨h1, rw, w', hrun, hs, hb, ht⟩

/-- The probe never reads its context: any two contexts give the same run. -/
theorem probeHomewizard_ctx_irrelevant (env : Env) (ctx ctx' : Context) (target : String)
    (registry : Nat) (w : World) :
    probeHomewizard env ctx target registry w = probeHomewizard env ctx' target registry w :=
  rfl

/-- The pristine state's registries are empty, hence registrable. -/
theorem registrable_pristine (reads registry : Nat) :
    Registrable (World.pristine reads) registry := by
  intro g hg
  cases hg

/-- C4, the code at the failing input.  The scraper of `cancelledRequest` goes away
before the device answers, so the context the handler derives and passes on is done,
and a GET carrying it would be aborted with an error; `probeHomewizard`, given that
context, still performs its GET to completion and returns `true`. -/
theorem probeHomewizard_ignores_cancelled_ctx :
    (Context.withTimeout cancelledRequest.ctx (5 * Second)).done exampleEnv = true ∧
    roundTrip exampleEnv (Context.withTimeout cancelledRequest.ctx (5 * Second))
      (dataURL "192.168.1.50") = .err "context canceled" ∧
    ∃ w', probeHomewizard exampleEnv (Context.withTimeout cancelledRequest.ctx (5 * Second))
        "192.168.1.50" 0 (World.pristine 0) = .ok (true, w') ∧
      w'.trace = [.get "http://192.168.1.50/api/v1/data"] := by
  refine ⟨by decide, by decide, ?_⟩
  obtain ⟨w', hrun, -, -, htrace, -⟩ :=
    probeHomewizard_run exampleEnv (Context.withTimeout cancelledRequest.ctx (5 * Second))
      "192.168.1.50" 0 (World.pristine 0) (registrable_pristine 0 0)
  have hdoc : fetch exampleEnv "192.168.1.50" = .ok exampleDoc :=
    fetch_ok exampleEnv _ "doc" exampleDoc (by decide) (by rfl)
  rw [hdoc] at hrun htrace
  exact ⟨w', hrun, htrace⟩

/-- C5.  On a registry it can be handed, `probeHomewizard` returns, and it returns
`false` exactly when the GET returned a transport-level error, or a response whose
status is not 200, or a response whose body does not decode; when it returns `false`
every gauge that existed before is unchanged and the eight gauges it created still hold
their initial 0. -/
theorem probeHomewizard_false_iff (env : Env) (ctx : Context) (target : String)
    (registry : Nat) (w : World) (hreg : Registrable w registry) :
    ∃ success w', probeHomewizard env ctx target registry w = .ok (success, w') ∧
      (success = false ↔
        ((∃ e, roundTrip env .background (dataURL target) = .err e) ∨
         (∃ resp, roundTrip env .background (dataURL target) = .resp resp ∧
            resp.StatusCode ≠ StatusOK) ∨
         (∃ resp, roundTrip env .background (dataURL target) = .resp resp ∧
            env.decode resp.Body = none))) ∧
      (success = false →
        (∀ g, g < w.next → w'.gauges g = w.gauges g) ∧
        ∀ g ∈ List.range' w.next 8, (w'.gauges g).val = 0) := by
  obtain ⟨w', hrun, -, -, -, -, hold, hnew, -⟩ :=
    probeHomewizard_run env ctx target registry w hreg
  refine ⟨_, w', hrun, ?_, ?_⟩
  · simpa [roundTrip, Context.done] using fetch_error_iff env target
  · intro hfalse
    refine ⟨hold, ?_⟩
    rcases hf : fetch env target with l | p
    · rw [hf] at hnew
      simp only [fieldOrZero, List.range', List.map, List.cons.injEq, Prod.mk.injEq,
        and_true] at hnew
      intro g hg
      simp only [List.range', List.mem_cons, List.not_mem_nil, or_false] at hg
      rcases hg with rfl | rfl | rfl | rfl | rfl | rfl | rfl | rfl
      · exact hnew.1.2
      · exact hnew.2.1.2
      · exact hnew.2.2.1.2
      · exact hnew.2.2.2.1.2
      · exact hnew.2.2.2.2.1.2
      · exact hnew.2.2.2.2.2.1.2
      · exact hnew.2.2.2.2.2.2.1.2
      · exact hnew.2.2.2.2.2.2.2.2
    · rw [hf] at hfalse
      exact absurd hfalse (by simp [fetched])

/-- C5, at an example: a device that answers 204, another 2xx status, makes the probe
return `false`. -/
theorem probeHomewizard_false_iff_witness :
    Registrable (World.pristine 0) 0 ∧
    ∃ w', probeHomewizard noContentEnv .background "192.168.1.50" 0 (World.pristine 0) =
      .ok (false, w') := by
  have h1 : Registrable (World.pristine 0) 0 := registrable_pristine 0 0
  obtain ⟨success, w', hrun, hiff, -⟩ :=
    probeHomewizard_false_iff noContentEnv .background "192.168.1.50" 0 (World.pristine 0) h1
  have hs : success = false := hiff.mpr (Or.inr (Or.inl ⟨⟨204, ""⟩, by decide, by decide⟩))
  subst hs
  exact ⟨h1, w', hrun⟩

/-- C7, as stated, fails at the target `a b` (`GET /probe?target=a%20b`).  The probe
returns `false`, having called `client.Get` once with `http://a b/api/v1/data`; that
string does not parse as a URL, so the call puts nothing on the wire: the outbound GETs
of the run are none, not the one GET to the concatenation that the claim promises. -/
theorem probeHomewizard_unparsable_target_sends_nothing :
    ∃ w', probeHomewizard spaceEnv .background "a b" 0 (World.pristine 0) = .ok (false, w') ∧
      gets w'.trace = ["http://a b/api/v1/data"] ∧
      w'.sent = [] ∧ w'.sent ≠ ["http://" ++ "a b" ++ "/api/v1/data"] := by
  obtain ⟨w', hrun, -, -, htrace, -, -, -, hsent⟩ :=
    probeHomewizard_run spaceEnv .background "a b" 0 (World.pristine 0)
      (registrable_pristine 0 0)
  have hdoc : fetch spaceEnv "a b" =
      .error (.queryFailed "a b" (.err "invalid character in host name")) := by
    simp [fetch, roundTrip, Context.done, spaceEnv]
  have hnone : clientSends spaceEnv (dataURL "a b") = [] := by decide
  rw [hdoc] at hrun htrace
  rw [hnone] at hsent
  have hsent' : w'.sent = [] := hsent
  refine ⟨w', hrun, ?_, hsent', ?_⟩
  · rw [htrace]
    rfl
  · rw [hsent']
    exact List.noConfusion

/-- C7, amended.  On a registry it can be handed, one run of `probeHomewizard` on target
`t` calls `client.Get` exactly once, on every path, and the string it passes is
`"http://" ++ t ++ "/api/v1/data"`, with `t` as it came; the GET requests the run puts
on the wire are the ones `net/http` sends for that one call. -/
theorem probeHomewizard_single_client_get (env : Env) (ctx : Context) (t : String)
    (registry : Nat) (w : World) (hreg : Registrable w registry) :
    ∃ success w', probeHomewizard env ctx t registry w = .ok (success, w') ∧
      gets w'.trace = gets w.trace ++ ["http://" ++ t ++ "/api/v1/data"] ∧
      w'.sent = w.sent ++ clientSends env ("http://" ++ t ++ "/api/v1/data") := by
  obtain ⟨w', hrun, -, -, htrace, -, -, -, hsent⟩ :=
    probeHomewizard_run env ctx t registry w hreg
  refine ⟨_, w', hrun, ?_, hsent⟩
  rw [htrace, gets_append]
  simp [gets, gets_fetchLog, dataURL]

/-- C7, amended, at the example: the probe of 10.0.0.9, which fails, has called
`client.Get` once, with `http://10.0.0.9/api/v1/data`, and that URL parses, so one GET
went out to it. -/
theorem probeHomewizard_single_client_get_witness :
    Registrable (World.pristine 0) 0 ∧
    ∃ success w', probeHomewizard exampleEnv .background "10.0.0.9" 0 (World.pristine 0) =
        .ok (success, w') ∧
      gets w'.trace = ["http://10.0.0.9/api/v1/data"] ∧
      w'.sent = ["http://10.0.0.9/api/v1/data"] := by
  have h1 : Registrable (World.pristine 0) 0 := registrable_pristine 0 0
  obtain ⟨success, w', hrun, hgets, hsent⟩ :=
    probeHomewizard_single_client_get exampleEnv .background "10.0.0.9" 0 (World.pristine 0)
      h1
  have hone : clientSends exampleEnv ("http://" ++ "10.0.0.9" ++ "/api/v1/data") =
      ["http://10.0.0.9/api/v1/data"] := by decide
  rw [hone] at hsent
  exact ⟨h1, success, w', hrun, hgets, hsent⟩

/-- C6.  A request with a non-empty target, whatever the device does: the response lists
exactly the ten metric names, and the request's registry holds the two meta gauges and
the eight device gauges. -/
theorem homewizardHandler_metric_names (env : Env) (r : Request) (w : World)
    (htarget : r.Query.Get "target" ≠ "") :
    ∃ rw w', homewizardHandler env r w = .ok (rw, w') ∧
      rw.names =
        ["homewizard_active_power_l1_watts", "homewizard_active_power_l2_watts",
         "homewizard_active_power_l3_watts", "homewizard_active_power_watts",
         "homewizard_any_power_fail_count", "homewizard_gas_m3_total",
         "homewizard_long_power_fail_count", "homewizard_wifi_strength_decibels",
         "probe_duration_seconds", "probe_success"] ∧
      registeredNames w' (w.next + 2) =
        ["probe_success", "probe_duration_seconds", "homewizard_wifi_strength_decibels",
         "homewizard_active_power_watts", "homewizard_active_power_l1_watts",
         "homewizard_active_power_l2_watts", "homewizard_active_power_l3_watts",
         "homewizard_any_power_fail_count", "homewizard_long_power_fail_count",
         "homewizard_gas_m3_total"] := by
  obtain ⟨w', hrun, -, -, -, hnames, -⟩ := homewizardHandler_run env r w htarget
  exact ⟨_, w', hrun, (exposition_gauges _ _).2.1, hnames⟩

/-- C6, at the examples: the probe of 192.168.1.50 succeeds, the probe of 10.0.0.9 fails,
and both responses list the same names. -/
theorem homewizardHandler_metric_names_witness :
    exampleRequest.Query.Get "target" ≠ "" ∧ refusedRequest.Query.Get "target" ≠ "" ∧
    ∃ rw₁ w₁ rw₂ w₂,
      homewizardHandler exampleEnv exampleRequest (World.pristine 0) = .ok (rw₁, w₁) ∧
      homewizardHandler exampleEnv refusedRequest (World.pristine 0) = .ok (rw₂, w₂) ∧
      rw₁.names = rw₂.names := by
  have h1 : exampleRequest.Query.Get "target" ≠ "" := by decide
  have h2 : refusedRequest.Query.Get "target" ≠ "" := by decide
  obtain ⟨rw₁, w₁, hrun₁, hn₁, -⟩ :=
    homewizardHandler_metric_names exampleEnv exampleRequest (World.pristine 0) h1
  obtain ⟨rw₂, w₂, hrun₂, hn₂, -⟩ :=
    homewizardHandler_metric_names exampleEnv refusedRequest (World.pristine 0) h2
  exact ⟨h1, h2, rw₁, w₁, rw₂, w₂, hrun₁, hrun₂, hn₁.trans hn₂.symm⟩

/-- C8.  A request with a non-empty target, under a clock that never runs backwards,
whatever the device does: `probe_duration_seconds` is set, to a value that is at least
0 and is `Seconds()` of the difference between two clock readings; in the trace the
first reading is followed by exactly the events of `probeHomewizard`, then by the second
reading, and only then by the handler's log line. -/
theorem homewizardHandler_duration (env : Env) (r : Request) (w : World)
    (htarget : r.Query.Get "target" ≠ "")
    (hclock : ∀ k, env.monotonic k ≤ env.monotonic (k + 1)) :
    ∃ rw w' duration probeEvents line,
      homewizardHandler env r w = .ok (rw, w') ∧
      rw.gauge "probe_duration_seconds" = some duration ∧
      0 ≤ duration ∧
      duration = (subMono (env.monotonic (w.reads + 1)) (env.monotonic w.reads)).Seconds ∧
      w'.trace = w.trace ++ .clock (env.monotonic w.reads) :: probeEvents ++
        [.clock (env.monotonic (w.reads + 1)), .log line] ∧
      ∀ ctx registry w₁, Registrable w₁ registry →
        ∃ success w₂, probeHomewizard env ctx (r.Query.Get "target") registry w₁ =
            .ok (success, w₂) ∧
          w₂.trace = w₁.trace ++ probeEvents := by
  obtain ⟨w', hrun, -, -, htrace, -⟩ := homewizardHandler_run env r w htarget
  refine ⟨_, w', _, .get (dataURL (r.Query.Get "target")) ::
    fetchLog (fetch env (r.Query.Get "target")),
    resultLine (fetch env (r.Query.Get "target")) (r.Query.Get "target")
      (subMono (env.monotonic (w.reads + 1)) (env.monotonic w.reads)).Seconds, hrun,
    (exposition_gauges _ _).2.2.2.2.2.2.2.2.2.2.1,
    Seconds_nonneg _ (subMono_nonneg _ _ (hclock _)), rfl, ?_, ?_⟩
  · exact htrace
  · intro ctx registry w₁ h₁
    obtain ⟨w₂, hprobe, -, -, htrace₂, -⟩ :=
      probeHomewizard_run env ctx (r.Query.Get "target") registry w₁ h₁
    exact ⟨_, w₂, hprobe, htrace₂⟩

/-- C8, at the example: the clock advances by a quarter of a second between the two
readings around the probe of 192.168.1.50, and the duration reported is 0.25. -/
theorem homewizardHandler_duration_witness :
    exampleRequest.Query.Get "target" ≠ "" ∧
    (∀ k, exampleEnv.monotonic k ≤ exampleEnv.monotonic (k + 1)) ∧
    ∃ rw w',
      homewizardHandler exampleEnv exampleRequest (World.pristine 0) = .ok (rw, w') ∧
      rw.gauge "probe_duration_seconds" = some (1 / 4) := by
  have h1 : exampleRequest.Query.Get "target" ≠ "" := by decide
  have h2 : ∀ k, exampleEnv.monotonic k ≤ exampleEnv.monotonic (k + 1) := by
    intro k
    show (1000 : Int) + 250000000 * (k : Int) ≤ 1000 + 250000000 * ((k + 1 : Nat) : Int)
    push_cast
    linarith
  obtain ⟨rw, w', duration, -, -, hrun, hg, -, hd, -⟩ :=
    homewizardHandler_duration exampleEnv exampleRequest (World.pristine 0) h1 h2
  have hsub : subMono (exampleEnv.monotonic ((World.pristine 0).reads + 1))
      (exampleEnv.monotonic (World.pristine 0).reads) = 250000000 := by decide
  rw [hsub, Seconds_quarter] at hd
  rw [hd] at hg
  exact ⟨h1, h2, rw, w', hrun, hg⟩

theorem fetch_congr (env env' : Env) (t : String)
    (hdev : env'.device (dataURL t) = env.device (dataURL t))
    (hdec : ∀ resp, env.device (dataURL t) = .resp resp →
      env'.decode resp.Body = env.decode resp.Body) :
    fetch env' t = fetch env t := by
  unfold fetch roundTrip
  simp only [Context.done, Bool.false_eq_true, if_false, hdev]
  rcases h : env.device (dataURL t) with e | resp
  · rfl
  · simp only [hdec resp h]

/-- A request served in any state of the process gets the response it gets alone, from
any environment that presents it with the same inputs, and leaves what the process
already held as it was. -/
theorem homewizardHandler_alone (env env' : Env) (r : Request) (w : World)
    (h : SameInputs env w.reads env' r) :
    ∃ rw w', homewizardHandler env r w = .ok (rw, w') ∧ respondsAlone env' r = some rw ∧
      w'.reads = (if r.Query.Get "target" = "" then w.reads else w.reads + 2) ∧
      Untouched w w' := by
  by_cases ht : r.Query.Get "target" = ""
  · obtain ⟨w', hrun, -, hreads, -, -, hregs, hgauges⟩ :=
      homewizardHandler_run_empty env r w ht
    obtain ⟨w₀, hrun₀, -⟩ := homewizardHandler_run_empty env' r (World.pristine 0) ht
    refine ⟨_, w', hrun, ?_, by simp [ht, hreads], fun j hj => ⟨hgauges j hj, by rw [hregs]⟩⟩
    simp [respondsAlone, hrun₀]
  · obtain ⟨w', hrun, -, hreads, -, -, hframe⟩ := homewizardHandler_run env r w ht
    obtain ⟨w₀, hrun₀, -⟩ := homewizardHandler_run env' r (World.pristine 0) ht
    obtain ⟨hdev, hdec, hdur⟩ := h
    refine ⟨_, w', hrun, ?_, by simp [ht, hreads], hframe⟩
    have hd : (subMono (env'.monotonic ((World.pristine 0).reads + 1))
        (env'.monotonic (World.pristine 0).reads)).Seconds =
        (subMono (env.monotonic (w.reads + 1)) (env.monotonic w.reads)).Seconds := hdur
    rw [fetch_congr env env' _ hdev hdec, hd] at hrun₀
    simp [respondsAlone, hrun₀]

/-- C9.  Two requests served one after the other by the same process, from any state it
may be in: both are answered, and each response is the response that request gets alone
(from a pristine process, in any environment that presents it with the same answer of
its own target's device, the same decoding of that answer and the same measured
duration).  Nothing the process holds from other requests, and nothing about other
targets, enters a response; and neither request changes a gauge or a registry that
existed before it started, so the second leaves the first one's ten gauges as they
were. -/
theorem homewizardHandler_isolated (env env₁ : Env) (r₁ r₂ : Request) (w : World)
    (h₁ : SameInputs env w.reads env₁ r₁) :
    ∃ rw₁ w₁, homewizardHandler env r₁ w = .ok (rw₁, w₁) ∧
      respondsAlone env₁ r₁ = some rw₁ ∧
      w₁.reads = (if r₁.Query.Get "target" = "" then w.reads else w.reads + 2) ∧
      Untouched w w₁ ∧
      ∀ env₂, SameInputs env w₁.reads env₂ r₂ →
        ∃ rw₂ w₂, homewizardHandler env r₂ w₁ = .ok (rw₂, w₂) ∧
          respondsAlone env₂ r₂ = some rw₂ ∧ Untouched w₁ w₂ := by
  obtain ⟨rw₁, w₁, hrun₁, halone₁, hreads₁, hframe₁⟩ :=
    homewizardHandler_alone env env₁ r₁ w h₁
  refine ⟨rw₁, w₁, hrun₁, halone₁, hreads₁, hframe₁, ?_⟩
  intro env₂ h₂
  obtain ⟨rw₂, w₂, hrun₂, halone₂, -, hframe₂⟩ := homewizardHandler_alone env env₂ r₂ w₁ h₂
  exact ⟨rw₂, w₂, hrun₂, halone₂, hframe₂⟩

/-- C9, at the examples: a process that has read its clock twice serves the probe of
192.168.1.50 and then the probe of 10.0.0.9; each gets the response it gets alone. -/
theorem homewizardHandler_isolated_witness :
    SameInputs exampleEnv (World.pristine 2).reads exampleEnv exampleRequest ∧
    ∃ rw₁ w₁ rw₂ w₂,
      homewizardHandler exampleEnv exampleRequest (World.pristine 2) = .ok (rw₁, w₁) ∧
      homewizardHandler exampleEnv refusedRequest w₁ = .ok (rw₂, w₂) ∧
      respondsAlone exampleEnv exampleRequest = some rw₁ ∧
      respondsAlone exampleEnv refusedRequest = some rw₂ := by
  have h₁ : SameInputs exampleEnv (World.pristine 2).reads exampleEnv exampleRequest :=
    ⟨rfl, fun _ _ => rfl, congrArg Duration.Seconds (by decide)⟩
  obtain ⟨rw₁, w₁, hrun₁, halone₁, hreads₁, -, hnext⟩ :=
    homewizardHandler_isolated exampleEnv exampleEnv exampleRequest refusedRequest
      (World.pristine 2) h₁
  have hr : w₁.reads = 4 := by
    rw [hreads₁]
    decide
  have h₂ : SameInputs exampleEnv w₁.reads exampleEnv refusedRequest := by
    rw [hr]
    exact ⟨rfl, fun _ _ => rfl, congrArg Duration.Seconds (by decide)⟩
  obtain ⟨rw₂, w₂, hrun₂, halone₂, -⟩ := hnext exampleEnv h₂
  exact ⟨h₁, rw₁, w₁, rw₂, w₂, hrun₁, hrun₂, halone₁, halone₂⟩

/-- C10.  The ten names are pairwise distinct, and the handler never panics: for every
request, in every state of the process, it returns a response; when the request has a
target, the registry it created holds gauges under exactly the ten names, each once. -/
theorem homewizardHandler_never_panics (env : Env) (r : Request) (w : World) :
    (metaNames ++ deviceNames).Nodup ∧
    ∃ rw w', homewizardHandler env r w = .ok (rw, w') ∧
      (r.Query.Get "target" ≠ "" →
        registeredNames w' (w.next + 2) = metaNames ++ deviceNames) := by
  refine ⟨by decide, ?_⟩
  by_cases ht : r.Query.Get "target" = ""
  · obtain ⟨w', hrun, -⟩ := homewizardHandler_run_empty env r w ht
    exact ⟨_, w', hrun, fun h => absurd ht h⟩
  · obtain ⟨w', hrun, -, -, -, hnames, -⟩ := homewizardHandler_run env r w ht
    exact ⟨_, w', hrun, fun _ => hnames⟩

end HomewizardP1Exporter
